import Mathlib

/-!
Verification of the column-matching ensemble, the claim verifier, the
semantic matcher, the SQLite migration executor and the FastAPI layers of
the IITR_DF_Finals repository (subprojects PS1 and PS2), via a shallow
embedding of the relevant Python functions into Lean.

Conventions:
* Python floats are modelled as exact rationals; the numeric literals in
  the source (0.30, 0.8, ...) are exact in both worlds.
* Calls into external ML libraries (sentence-transformers, torch, sklearn,
  rapidfuzz, the Gemini SDK) and into SQLite are modelled as explicit
  oracle parameters: the surrounding control flow and arithmetic are
  transcribed from the source, the external call results are inputs.
* Python exceptions are modelled with Option/Except; a raised exception is
  an error value, a try/except is a match on it.
-/

namespace Spec2Proof

/-! ### PS2 `src/hybrid_ai_engine.py`: HybridAIEngine ensemble score (C1)

`HybridAIEngine.__init__` (line 178) fixes the model weights, and
`match_columns` (lines 394-416) combines the four per-pair similarity
signals into the ensemble score used to rank matches.  The four signal
values come from BERT, Gemini, TF-IDF and the domain dictionary and are
inputs here. -/

/-- Model weights from `HybridAIEngine.__init__`:
`self.weights = dict(bert 0.30, gemini 0.40, tfidf 0.10, domain 0.20)`. -/
structure HybridWeights where
  bert : ℚ
  gemini : ℚ
  tfidf : ℚ
  domain : ℚ

/-- The weights dictionary of `HybridAIEngine.__init__` (line 178). -/
def hybridWeights : HybridWeights :=
  { bert := 0.30, gemini := 0.40, tfidf := 0.10, domain := 0.20 }

/-- Per-pair ensemble score, transcribed from the body of
`HybridAIEngine.match_columns` (hybrid_ai_engine.py lines 394-416).
`geminiAvailable` models `self.gemini_model` being non-None. -/
def ensembleScore (geminiAvailable : Bool) (bert gemini tfidf domain : ℚ) : ℚ :=
  if geminiAvailable then
    let base :=
      hybridWeights.bert * bert + hybridWeights.gemini * gemini +
      hybridWeights.tfidf * tfidf + hybridWeights.domain * domain
    if gemini ≥ 0.8 then base * 0.3 + gemini * 0.7
    else if gemini ≥ 0.5 then base * 0.5 + gemini * 0.5
    else base
  else
    0.50 * bert + 0.21 * tfidf + 0.29 * domain

/-! ### PS1 `core/claim_verifier.py`: ClaimVerifier (C7, C8) -/

/-- The class attribute `ClaimVerifier.LABEL_MAP` (lines 16-20). -/
def LABEL_MAP : List (Nat × String) :=
  [(0, "contradiction"), (1, "neutral"), (2, "entailment")]

/-- Python dict lookup with default, `self.LABEL_MAP.get(k, dflt)`. -/
def labelMapGet (k : Nat) (dflt : String) : String :=
  (LABEL_MAP.lookup k).getD dflt

/-- Softmax over the three class logits, `torch.softmax(logits, dim=1)[0]`
in `ClaimVerifier._run_nli`.  The NLI model outputs exactly three class
logits (the precondition of the claim), which the type `Fin 3` encodes. -/
noncomputable def softmax3 (logits : Fin 3 → ℝ) (i : Fin 3) : ℝ :=
  Real.exp (logits i) / ∑ j, Real.exp (logits j)

/-- Index of the first maximal entry of a 3-vector, `torch.argmax(probs)`. -/
noncomputable def argmax3 (p : Fin 3 → ℝ) : Fin 3 :=
  if p 0 < p 1 then (if p 1 < p 2 then 2 else 1)
  else (if p 0 < p 2 then 2 else 0)

/-- The prediction step of `ClaimVerifier._run_nli` (lines 123-128): the
argmax class, its LABEL_MAP label (default "unknown") and its softmax
probability as the confidence.  Tokenization and the model forward pass
are external; the logits they produce are the input. -/
noncomputable def runNli (logits : Fin 3 → ℝ) : String × ℝ :=
  let probs := softmax3 logits
  let predicted := argmax3 probs
  let confidence := probs predicted
  (labelMapGet predicted.val "unknown", confidence)

/-- Per-claim status as returned by `ClaimVerifier.verify_claim` /
`_aggregate_nli_results`, whose return statements produce exactly the
string literals "supported", "contradicted" and "unverifiable". -/
inductive ClaimStatus where
  | supported
  | contradicted
  | unverifiable
deriving DecidableEq

/-- Test `r['status'] == 'supported'` (claim_verifier.py line 225). -/
def isSupported : ClaimStatus → Bool
  | .supported => true
  | _ => false

/-- Test `r['status'] == 'contradicted'` (line 226). -/
def isContradicted : ClaimStatus → Bool
  | .contradicted => true
  | _ => false

/-- Test `r['status'] == 'unverifiable'` (line 227). -/
def isUnverifiable : ClaimStatus → Bool
  | .unverifiable => true
  | _ => false

/-- The trust-score computation of `ClaimVerifier.verify_document`
(lines 224-235): `supported/total` (0.0 when empty), minus
`(contradicted/total)*0.5` (0.0 when empty), clamped to [0, 1]. -/
def trustScore (l : List ClaimStatus) : ℚ :=
  let total : ℚ := l.length
  let supported : ℚ := l.countP isSupported
  let contradicted : ℚ := l.countP isContradicted
  let raw := (if 0 < l.length then supported / total else 0) -
    (if 0 < l.length then contradicted / total * 0.5 else 0)
  max 0 (min 1 raw)

/-! ### PS2 `src/semantic_matcher.py`: SemanticMatcher (C9)

`SemanticMatcher.match_columns` (lines 325-382) picks, for every source
column, the best-scoring target column above the threshold, attaches a
confidence level from `_determine_confidence` (lines 279-288) and returns
the matches sorted by score, highest first.  The semantic score (a
sentence-transformers model) and the syntactic score (rapidfuzz) are
external calls and are oracle inputs here; `_compute_type_score`
(lines 257-277) is transcribed. -/

/-- Column description from `schema_extractor.ColumnInfo`: only the
fields `match_columns` reads (name and data type). -/
structure ColumnInfo where
  name : String
  data_type : String
deriving DecidableEq

/-- Table description from `schema_extractor.TableInfo`: name and
columns. -/
structure TableInfo where
  name : String
  columns : List ColumnInfo
deriving DecidableEq

/-- The `MatchConfidence` enum of semantic_matcher.py (lines 34-39). -/
inductive MatchConfidence where
  | high
  | medium
  | low
  | none
deriving DecidableEq

/-- The `ColumnMatch` dataclass (lines 42-59); the generated explanation
string and warnings (pure presentation, built by `_generate_explanation`)
are omitted. -/
structure ColumnMatch where
  source_column : String
  source_table : String
  target_column : String
  target_table : String
  overall_score : ℚ
  confidence : MatchConfidence
  semantic_score : ℚ
  syntactic_score : ℚ
  type_score : ℚ
deriving DecidableEq

/-- `SemanticMatcher.TYPE_COMPATIBILITY` (lines 138-155). -/
def TYPE_COMPATIBILITY : List (String × List String) :=
  [("INTEGER", ["INTEGER", "BIGINT", "INT", "SMALLINT", "NUMERIC",
      "DECIMAL", "FLOAT", "DOUBLE", "REAL"]),
   ("INT", ["INTEGER", "BIGINT", "INT", "SMALLINT", "NUMERIC", "DECIMAL",
      "FLOAT", "DOUBLE", "REAL"]),
   ("BIGINT", ["BIGINT", "INTEGER", "NUMERIC", "DECIMAL"]),
   ("FLOAT", ["FLOAT", "DOUBLE", "REAL", "NUMERIC", "DECIMAL"]),
   ("DOUBLE", ["DOUBLE", "FLOAT", "REAL", "NUMERIC", "DECIMAL"]),
   ("REAL", ["REAL", "FLOAT", "DOUBLE", "NUMERIC", "DECIMAL"]),
   ("TEXT", ["TEXT", "VARCHAR", "CHAR", "NVARCHAR", "NCHAR", "STRING",
      "CLOB"]),
   ("VARCHAR", ["VARCHAR", "TEXT", "CHAR", "NVARCHAR", "NCHAR",
      "STRING"]),
   ("CHAR", ["CHAR", "VARCHAR", "TEXT", "NCHAR"]),
   ("BLOB", ["BLOB", "BINARY", "VARBINARY", "BYTEA"]),
   ("DATE", ["DATE", "DATETIME", "TIMESTAMP"]),
   ("DATETIME", ["DATETIME", "TIMESTAMP", "DATE"]),
   ("TIMESTAMP", ["TIMESTAMP", "DATETIME", "DATE"]),
   ("BOOLEAN", ["BOOLEAN", "BIT", "TINYINT", "INTEGER"]),
   ("BOOL", ["BOOLEAN", "BIT", "TINYINT", "INTEGER"])]

/-- `source_type.upper().split('(')[0].strip()` in `_compute_type_score`. -/
def baseTypeName (t : String) : String :=
  (((t.toUpper).splitOn "(").headD "").trim

/-- `SemanticMatcher._compute_type_score` (lines 257-277). -/
def computeTypeScore (source_type target_type : String) : ℚ :=
  let s := baseTypeName source_type
  let t := baseTypeName target_type
  if s = t then 1.0
  else if ((TYPE_COMPATIBILITY.lookup s).getD []).contains t then 0.8
  else if ((TYPE_COMPATIBILITY.lookup t).getD []).contains s then 0.6
  else 0.2

/-- The score weights of `SemanticMatcher.__init__` (lines 173-177):
semantic 0.50, syntactic 0.30, type 0.20. -/
structure MatcherWeights where
  semantic : ℚ
  syntactic : ℚ
  typeCompat : ℚ

/-- The weights dictionary of `SemanticMatcher.__init__`. -/
def matcherWeights : MatcherWeights :=
  { semantic := 0.50, syntactic := 0.30, typeCompat := 0.20 }

/-- `SemanticMatcher._determine_confidence` (lines 279-288). -/
def determineConfidence (score : ℚ) : MatchConfidence :=
  if score ≥ 0.85 then .high
  else if score ≥ 0.60 then .medium
  else if score ≥ 0.40 then .low
  else .none

/-- One iteration of the inner loop of `match_columns` (lines 346-371):
score the source/target pair and keep it when it beats the running best
and reaches the threshold.  `sem` and `syn` are the oracles for
`_compute_semantic_score` and `_compute_syntactic_score`. -/
def considerTarget (sem syn : String → String → ℚ)
    (sourceTableName targetTableName : String) (threshold : ℚ)
    (src : ColumnInfo) (acc : ℚ × Option ColumnMatch) (tgt : ColumnInfo) :
    ℚ × Option ColumnMatch :=
  let semantic := sem src.name tgt.name
  let syntactic := syn src.name tgt.name
  let type_score := computeTypeScore src.data_type tgt.data_type
  let overall := matcherWeights.semantic * semantic +
    matcherWeights.syntactic * syntactic +
    matcherWeights.typeCompat * type_score
  if overall > acc.1 ∧ overall ≥ threshold then
    (overall,
      some { source_column := src.name
             source_table := sourceTableName
             target_column := tgt.name
             target_table := targetTableName
             overall_score := overall
             confidence := determineConfidence overall
             semantic_score := semantic
             syntactic_score := syntactic
             type_score := type_score })
  else acc

/-- The per-source-column selection of `match_columns`: fold of
`considerTarget` over the target columns starting from
`best_score = 0, best_match = None`. -/
def bestMatchFor (sem syn : String → String → ℚ)
    (source_table target_table : TableInfo) (threshold : ℚ)
    (src : ColumnInfo) : Option ColumnMatch :=
  (target_table.columns.foldl
    (considerTarget sem syn source_table.name target_table.name threshold src)
    (0, Option.none)).2

/-- Comparison used by `matches.sort(key=lambda x: x.overall_score,
reverse=True)`: the left match scores at least as high. -/
def scoreGE (a b : ColumnMatch) : Prop :=
  b.overall_score ≤ a.overall_score

instance : DecidableRel scoreGE := fun a b =>
  inferInstanceAs (Decidable (b.overall_score ≤ a.overall_score))

instance : IsTotal ColumnMatch scoreGE :=
  ⟨fun a b => le_total b.overall_score a.overall_score⟩

instance : IsTrans ColumnMatch scoreGE :=
  ⟨fun _ _ _ hab hbc => le_trans hbc hab⟩

/-- `SemanticMatcher.match_columns` (lines 325-382): best match per source
column, then sort by score, highest first. -/
def matchColumnsSM (sem syn : String → String → ℚ)
    (source_table target_table : TableInfo) (threshold : ℚ) :
    List ColumnMatch :=
  let found := source_table.columns.filterMap
    (bestMatchFor sem syn source_table target_table threshold)
  found.insertionSort scoreGE

/-! ### PS2 `src/migration_executor.py`: MigrationExecutor (C2, C3, C10)

`MigrationExecutor.migrate_table` (lines 133-219) counts the source rows,
returns early on a dry run, otherwise copies the rows batch by batch via
`_migrate_batch` (lines 221-284) with per-row try/except, then commits;
an exception escaping the batch loop is caught, the target connection is
rolled back, and the result is FAILED.

SQLite is modelled as data: the source table is a list of rows, the
target database is the list of committed inserted rows, and uncommitted
inserts live in a pending list that a commit appends to the committed
list and a rollback (or closing the connection) discards.  SQLite values
are modelled as integers; what can fail per row (constraint violations
raised by the target INSERT, or a raising transformation) is an oracle,
as is a failure of `connect()` or of a batch's SELECT.  Wall-clock fields
(start_time, end_time, duration_seconds) are not modelled. -/

/-- The `MigrationStatus` enum (migration_executor.py lines 26-33); the
PARTIAL member is named `partialSuccess` because its Python name is a
Lean keyword. -/
inductive MigStatus where
  | pending
  | in_progress
  | completed
  | failed
  | rolled_back
  | partialSuccess
deriving DecidableEq

/-- A row fetched from the source table: its SQLite rowid and the values
of the selected source columns. -/
structure SourceRow where
  rowid : Int
  vals : List Int
deriving DecidableEq

/-- The `FailedRecord` dataclass (lines 36-58); `record_data` is the dict
built from the source columns and the raw row values; the timestamp is
wall-clock and not modelled. -/
structure FailedRecord where
  source_table : String
  record_id : Int
  record_data : List (String × Int)
  error_message : String
  error_type : String
deriving DecidableEq

/-- A row inserted into a target table by `INSERT INTO target_table`. -/
structure InsertedRow where
  table : String
  vals : List Int
deriving DecidableEq

/-- Oracle for the per-row try block of `_migrate_batch` (lines 246-282):
`rowError r = some (msg, ty)` when processing row `r` raises an exception
with message `msg` and type name `ty` (a failing INSERT or a raising
transformation), `none` when the INSERT succeeds; `transformedVals r` is
the value list actually inserted after `_apply_transformation`. -/
structure RowOracle where
  rowError : SourceRow → Option (String × String)
  transformedVals : SourceRow → List Int

/-- Oracle for the remaining externally-failing steps of `migrate_table`:
`connectError` is an exception raised by `connect()` and `fetchError i`
one raised by the SELECT of the i-th batch in `_migrate_batch`. -/
structure MigOracle where
  row : RowOracle
  connectError : Option String
  fetchError : Nat → Option String

/-- Mutable state accumulated across the batch loop: the counters and
failure list of the `MigrationResult` plus the uncommitted inserts of the
target connection. -/
structure MigState where
  migrated : Nat
  failedCount : Nat
  failedRecs : List FailedRecord
  pending : List InsertedRow
deriving DecidableEq

/-- The initial batch-loop state: zero counters, nothing pending. -/
def initMigState : MigState :=
  { migrated := 0, failedCount := 0, failedRecs := [], pending := [] }

/-- The per-row try/except of `_migrate_batch` (lines 246-282): on
success count the row as migrated and add the INSERT to the uncommitted
target state; on an exception append one FailedRecord built from the
source table name, the rowid, the source columns zipped with the raw row
values, and the error, then continue. -/
def processRow (o : RowOracle) (source_table target_table : String)
    (source_columns : List String) (st : MigState) (r : SourceRow) :
    MigState :=
  match o.rowError r with
  | Option.none =>
      { st with
        migrated := st.migrated + 1,
        pending := st.pending ++ [⟨target_table, o.transformedVals r⟩] }
  | some (msg, ty) =>
      { st with
        failedCount := st.failedCount + 1,
        failedRecs := st.failedRecs ++
          [⟨source_table, r.rowid, source_columns.zip r.vals, msg, ty⟩] }

/-- The row loop of one `_migrate_batch` call over its fetched rows. -/
def migrateBatch (o : RowOracle) (source_table target_table : String)
    (source_columns : List String) (rows : List SourceRow)
    (st : MigState) : MigState :=
  rows.foldl (processRow o source_table target_table source_columns) st

/-- The successive batches fetched by `SELECT ... LIMIT batch_size OFFSET
offset` as `offset` steps by `batch_size` over the source rows.  The
Python loop does not terminate for `batch_size = 0`; this totalization
returns no chunks in that case and every theorem about the loop assumes a
positive batch size. -/
def chunksOf (bs : Nat) (l : List α) : List (List α) :=
  if h : bs = 0 ∨ l.isEmpty = true then []
  else l.take bs :: chunksOf bs (l.drop bs)
termination_by l.length
decreasing_by
  push_neg at h
  simp only [List.length_drop]
  exact Nat.sub_lt (List.length_pos.mpr (by simpa using h.2))
    (Nat.pos_of_ne_zero h.1)

/-- The `while offset < total_records` loop of `migrate_table`
(lines 187-196): run `_migrate_batch` on each successive batch; a batch
whose SELECT raises stops the loop with that exception and the state
mutated so far. -/
def batchLoop (o : MigOracle) (source_table target_table : String)
    (source_columns : List String) (chunks : List (List SourceRow))
    (i : Nat) (st : MigState) : MigState × Option String :=
  match chunks with
  | [] => (st, Option.none)
  | c :: rest =>
    match o.fetchError i with
    | some e => (st, some e)
    | Option.none =>
        batchLoop o source_table target_table source_columns rest (i + 1)
          (migrateBatch o.row source_table target_table source_columns c st)

/-- The `MigrationResult` dataclass fields that `migrate_table` fills in
(wall-clock fields and `transformations_applied`, a list of description
strings, omitted). -/
structure MigResult where
  source_table : String
  target_table : String
  status : MigStatus
  records_attempted : Nat
  records_migrated : Nat
  records_failed : Nat
  failed_records : List FailedRecord
  error_message : Option String
deriving DecidableEq

/-- `MigrationExecutor.migrate_table` (lines 133-219).  Inputs: the
oracle, the source database as an association list from table names to
row lists (the `SELECT COUNT(*)` raises when the source table is
missing), the committed content of the target database, the table names,
the source/target column lists from the mappings, the batch size and the
dry-run flag.  Output: the MigrationResult, the committed target content
after the call (pending inserts are committed on the success paths and
rolled back on the exception path) and the number of commits executed. -/
def migrateTable (o : MigOracle) (srcDb : List (String × List SourceRow))
    (tgtCommitted : List InsertedRow) (source_table target_table : String)
    (source_columns : List String) (batch_size : Nat) (dry_run : Bool) :
    MigResult × List InsertedRow × Nat :=
  match o.connectError with
  | some e =>
      -- `self.connect()` raised: caught by the except, rollback of an
      -- empty transaction, FAILED result, connections closed in finally.
      (⟨source_table, target_table, .failed, 0, 0, 0, [], some e⟩,
        tgtCommitted, 0)
  | Option.none =>
    match srcDb.lookup source_table with
    | Option.none =>
        -- `SELECT COUNT(*)` raised (`no such table`): FAILED, rollback.
        (⟨source_table, target_table, .failed, 0, 0, 0, [],
          some ("no such table: " ++ source_table)⟩, tgtCommitted, 0)
    | some rows =>
      let total_records := rows.length
      if dry_run then
        -- Lines 179-184: early return, no batch is processed.
        (⟨source_table, target_table, .completed, total_records,
          total_records, 0, [], Option.none⟩, tgtCommitted, 0)
      else
        match batchLoop o source_table target_table source_columns
          (chunksOf batch_size rows) 0 initMigState with
        | (st, some e) =>
            -- An exception escaped the batch loop: FAILED, rollback
            -- discards the pending inserts (lines 206-211).
            (⟨source_table, target_table, .failed, total_records,
              st.migrated, st.failedCount, st.failedRecs, some e⟩,
              tgtCommitted, 0)
        | (st, Option.none) =>
            -- Lines 198-204: commit (exactly one commit on either
            -- branch), COMPLETED when nothing failed, else PARTIAL.
            (⟨source_table, target_table,
              (if st.failedCount = 0 then .completed else .partialSuccess),
              total_records, st.migrated, st.failedCount, st.failedRecs,
              Option.none⟩,
              tgtCommitted ++ st.pending, 1)

/-- The FailedRecord that `_migrate_batch` builds for a failing row. -/
def mkFailedRecord (o : RowOracle) (source_table : String)
    (source_columns : List String) (r : SourceRow) : FailedRecord :=
  match o.rowError r with
  | some (msg, ty) =>
      ⟨source_table, r.rowid, source_columns.zip r.vals, msg, ty⟩
  | Option.none => ⟨source_table, r.rowid, source_columns.zip r.vals, "", ""⟩

/-- Sample row oracle for concrete runs: every INSERT succeeds and the
transformations leave the values unchanged. -/
def okRowOracle : RowOracle :=
  ⟨fun _ => Option.none, fun r => r.vals⟩

/-- Sample oracle for concrete runs: nothing raises. -/
def okMigOracle : MigOracle :=
  ⟨okRowOracle, Option.none, fun _ => Option.none⟩

/-! ### Connection lifecycle of the MigrationExecutor operations (C5)

`connect()` (migration_executor.py lines 120-124) opens the source
connection, then the target connection; either `sqlite3.connect` call can
raise, in which case the connections opened so far stay open.
`disconnect()` (lines 126-131) closes whatever is open.  `migrate_table`
calls `connect()` inside its try (line 165) with `disconnect()` in the
finally (line 216); `rollback_migration` likewise (lines 329-339);
`detect_split_candidates` calls `connect()` *before* its try block
(lines 417-419) with `disconnect()` in the finally (line 449). -/

/-- Which of the two SQLite connections of a MigrationExecutor are open. -/
structure ConnState where
  srcOpen : Bool
  tgtOpen : Bool
deriving DecidableEq

/-- Oracle for the failure points of an operation: an exception raised by
`sqlite3.connect` on the source path, one raised on the target path, and
one raised by the operation body between connect and the finally. -/
structure ConnOracle where
  srcConnectError : Option String
  tgtConnectError : Option String
  bodyError : Option String

/-- `MigrationExecutor.connect` (lines 120-124): open the source
connection, then the target connection; a raising `sqlite3.connect` call
leaves the connections opened so far open and propagates. -/
def connectSteps (o : ConnOracle) (st : ConnState) :
    ConnState × Option String :=
  match o.srcConnectError with
  | some e => (st, some e)
  | Option.none =>
    let st1 := { st with srcOpen := true }
    match o.tgtConnectError with
    | some e => (st1, some e)
    | Option.none => ({ st1 with tgtOpen := true }, Option.none)

/-- `MigrationExecutor.disconnect` (lines 126-131): close whatever is
open. -/
def disconnectStep (_st : ConnState) : ConnState :=
  ⟨false, false⟩

/-- The connection lifecycle of `migrate_table` (lines 164-216):
`connect()` and the body inside the try, every exception caught by the
except clause, `disconnect()` in the finally; no exception reaches the
caller. -/
def migrateTableConns (o : ConnOracle) (st : ConnState) :
    ConnState × Option String :=
  let p := connectSteps o st
  match p.2 with
  | some _ => (disconnectStep p.1, Option.none)
  | Option.none => (disconnectStep p.1, Option.none)

/-- The connection lifecycle of `rollback_migration` (lines 329-339):
same try/except/finally shape as `migrate_table` (the except returns
False). -/
def rollbackMigrationConns (o : ConnOracle) (st : ConnState) :
    ConnState × Option String :=
  let p := connectSteps o st
  match p.2 with
  | some _ => (disconnectStep p.1, Option.none)
  | Option.none => (disconnectStep p.1, Option.none)

/-- The connection lifecycle of `detect_split_candidates`
(lines 417-449): `connect()` runs before the try block, so an exception
it raises propagates before the finally is installed; afterwards the body
runs inside try/finally with `disconnect()` in the finally (a body
exception propagates after the disconnect). -/
def detectSplitConns (o : ConnOracle) (st : ConnState) :
    ConnState × Option String :=
  let p := connectSteps o st
  match p.2 with
  | some e => (p.1, some e)
  | Option.none => (disconnectStep p.1, o.bodyError)

/-! ### PS1 `core/api.py`: error handling at the API boundary (C4)

The `/verify` handler `verify_text` (lines 141-203) stores a processing
job, runs the five pipeline steps (claim atomization, verification,
citation linking, correction generation, HTML generation) inside one try,
and converts any exception into a failed job plus an HTTP 500; the
`/upload-source` handler `upload_source_document` (lines 100-138)
converts an ingestion exception into an HTTP 500.  The pipeline steps and
the PDF ingestion call external ML components and are oracles here, each
either returning a payload or raising. -/

/-- An HTTPException as raised by the FastAPI handlers. -/
structure HTTPError where
  status_code : Nat
  detail : String
deriving DecidableEq

/-- A stored verification job: the fields of the `jobs[job_id]` dict that
the error path touches (the wall-clock `created_at` is not modelled). -/
structure Job where
  status : String
  error : Option String
  llm_text : String
deriving DecidableEq

/-- Python dict assignment `d[k] = v` on an association list: replace the
binding if the key is present, append it otherwise. -/
def setKey {β : Type} : List (String × β) → String → β → List (String × β)
  | [], k, v => [(k, v)]
  | (k0, v0) :: rest, k, v =>
    if k0 = k then (k, v) :: rest else (k0, v0) :: setKey rest k v

/-- The `/verify` handler `verify_text` (lines 141-203): store the job as
processing, run the pipeline (an oracle returning the response payload or
raising), and on an exception mark the job failed with the error string
and raise HTTP 500 with detail `Verification failed: ...`. -/
def verifyText (pipeline : Except String String) (job_id llm_text : String)
    (jobs : List (String × Job)) :
    List (String × Job) × Except HTTPError String :=
  let jobs1 := setKey jobs job_id ⟨"processing", Option.none, llm_text⟩
  match pipeline with
  | .ok payload =>
      (setKey jobs1 job_id ⟨"completed", Option.none, llm_text⟩,
        .ok payload)
  | .error e =>
      (setKey jobs1 job_id ⟨"failed", some e, llm_text⟩,
        .error ⟨500, "Verification failed: " ++ e⟩)

/-- Python `str.endswith(suffix)` over the character lists. -/
def pyEndsWith (s suffix : String) : Bool :=
  suffix.toList.isSuffixOf s.toList

/-- The `/upload-source` handler `upload_source_document`
(lines 100-138): reject non-PDF filenames with HTTP 400, then ingest (an
oracle returning the chunk count or raising) and convert an ingestion
exception into HTTP 500 with detail `Failed to ingest document: ...`. -/
def uploadSourceDocument (ingest : Except String Nat) (filename : String) :
    Except HTTPError (String × Nat) :=
  if ¬ pyEndsWith filename ".pdf" then
    .error ⟨400, "Only PDF files are supported"⟩
  else
    match ingest with
    | .ok n => .ok (filename, n)
    | .error e => .error ⟨500, "Failed to ingest document: " ++ e⟩

/-! ### PS2 `api.py`: session guard of the endpoints (C6)

Each endpoint over an existing session (`/api/analyze`,
`/api/mapping-report`, `/api/migrate`, `/api/validation-report`,
`/api/visualization`, `/api/explain`) first checks
`session_id not in sessions` and raises HTTP 404 "Session not found"
before touching anything.  The session payload is reduced to the fields
those handlers test; the handler bodies (ML engine, SQLite work,
report building) are oracles. -/

/-- The fields of a stored session that the endpoint guards consult:
`session["mappings"] is None` and `session.get("validation") is None`. -/
structure SessionData where
  source_path : String
  target_path : String
  hasMappings : Bool
  hasValidation : Bool
deriving DecidableEq

/-- The `/api/analyze` handler `analyze_schemas` (api.py lines 197-236):
404 guard, then the matching body (oracle) updates the session and
returns the response. -/
def analyzeSchemas (run : SessionData → SessionData × String)
    (session_id : String) (sessions : List (String × SessionData)) :
    List (String × SessionData) × Except HTTPError String :=
  match sessions.lookup session_id with
  | Option.none => (sessions, .error ⟨404, "Session not found"⟩)
  | some s =>
      let p := run s
      (setKey sessions session_id p.1, .ok p.2)

/-- The `/api/mapping-report/{session_id}` handler (lines 239-284): 404
guard, 400 when the analysis has not run, else the report (oracle). -/
def getMappingReport (report : SessionData → String) (session_id : String)
    (sessions : List (String × SessionData)) :
    List (String × SessionData) × Except HTTPError String :=
  match sessions.lookup session_id with
  | Option.none => (sessions, .error ⟨404, "Session not found"⟩)
  | some s =>
      if s.hasMappings then (sessions, .ok (report s))
      else (sessions, .error ⟨400, "Analysis not run yet"⟩)

/-- The `/api/migrate` handler `execute_migration` (lines 287-368): 404
guard, 400 when the analysis has not run, else the migration body
(oracle) updates the session and returns the response. -/
def executeMigration (run : SessionData → SessionData × String)
    (session_id : String) (sessions : List (String × SessionData)) :
    List (String × SessionData) × Except HTTPError String :=
  match sessions.lookup session_id with
  | Option.none => (sessions, .error ⟨404, "Session not found"⟩)
  | some s =>
      if s.hasMappings then
        let p := run s
        (setKey sessions session_id p.1, .ok p.2)
      else (sessions, .error ⟨400, "Analysis not run yet"⟩)

/-- The `/api/validation-report/{session_id}` handler (lines 453-481):
404 guard, 400 when the migration has not run, else the report. -/
def getValidationReport (report : SessionData → String)
    (session_id : String) (sessions : List (String × SessionData)) :
    List (String × SessionData) × Except HTTPError String :=
  match sessions.lookup session_id with
  | Option.none => (sessions, .error ⟨404, "Session not found"⟩)
  | some s =>
      if s.hasValidation then (sessions, .ok (report s))
      else (sessions, .error ⟨400, "Migration not executed yet"⟩)

/-- The `/api/visualization/{session_id}` handler (lines 484-594): 404
guard, 400 when the analysis has not run, else the Sankey data. -/
def getVisualizationData (report : SessionData → String)
    (session_id : String) (sessions : List (String × SessionData)) :
    List (String × SessionData) × Except HTTPError String :=
  match sessions.lookup session_id with
  | Option.none => (sessions, .error ⟨404, "Session not found"⟩)
  | some s =>
      if s.hasMappings then (sessions, .ok (report s))
      else (sessions, .error ⟨400, "Analysis not run yet"⟩)

/-- The `/api/explain/{session_id}` handler (lines 597-688): 404 guard,
400 when the analysis has not run, else the explainability report. -/
def getExplainReport (report : SessionData → String)
    (session_id : String) (sessions : List (String × SessionData)) :
    List (String × SessionData) × Except HTTPError String :=
  match sessions.lookup session_id with
  | Option.none => (sessions, .error ⟨404, "Session not found"⟩)
  | some s =>
      if s.hasMappings then (sessions, .ok (report s))
      else (sessions, .error ⟨400, "Analysis not run yet"⟩)

end Spec2Proof

namespace Spec2Proof

/-! ### Theorems -/

/-- C1: in `HybridAIEngine.match_columns` with the Gemini model available,
the ensemble score of every evaluated source/target column pair is the
weighted sum of the BERT, Gemini, TF-IDF and domain signals with weights
0.30, 0.40, 0.10, 0.20, boosted to `0.3*sum + 0.7*gemini` when the Gemini
score is at least 0.8, to `0.5*sum + 0.5*gemini` when it is at least 0.5,
and left as the weighted sum otherwise. -/
theorem c1_ensemble_score_formula (b g t d : ℚ) :
    ensembleScore true b g t d =
      if 0.8 ≤ g then
        0.3 * (0.30 * b + 0.40 * g + 0.10 * t + 0.20 * d) + 0.7 * g
      else if 0.5 ≤ g then
        0.5 * (0.30 * b + 0.40 * g + 0.10 * t + 0.20 * d) + 0.5 * g
      else
        0.30 * b + 0.40 * g + 0.10 * t + 0.20 * d := by
  simp only [ensembleScore, hybridWeights, if_true]
  split_ifs <;> ring

/-- Helper: for every index of `Fin 3`, the LABEL_MAP lookup in
`_run_nli` hits one of the three labels and never the "unknown" default. -/
theorem labelMapGet_fin3 :
    ∀ a : Fin 3,
      (labelMapGet a.val "unknown" = "contradiction" ∨
        labelMapGet a.val "unknown" = "neutral" ∨
        labelMapGet a.val "unknown" = "entailment") ∧
      labelMapGet a.val "unknown" ≠ "unknown" := by
  decide

/-- C7: `ClaimVerifier._run_nli` classifies every (premise, hypothesis)
pair whose model output has exactly three class logits into one of
"contradiction", "neutral" or "entailment"; the argmax index lies in the
domain of LABEL_MAP so the "unknown" fallback is unreachable, and the
returned confidence is the softmax probability of the chosen class, which
lies in (0, 1]. -/
theorem c7_run_nli_label_and_confidence (logits : Fin 3 → ℝ) :
    ((runNli logits).1 = "contradiction" ∨ (runNli logits).1 = "neutral" ∨
      (runNli logits).1 = "entailment") ∧
    (runNli logits).1 ≠ "unknown" ∧
    (runNli logits).2 = softmax3 logits (argmax3 (softmax3 logits)) ∧
    0 < (runNli logits).2 ∧ (runNli logits).2 ≤ 1 := by
  have hsum : 0 < ∑ j, Real.exp (logits j) :=
    Finset.sum_pos (fun i _ => Real.exp_pos _) Finset.univ_nonempty
  have hpos : ∀ i, 0 < softmax3 logits i := fun i =>
    div_pos (Real.exp_pos _) hsum
  have hle : ∀ i, softmax3 logits i ≤ 1 := by
    intro i
    rw [softmax3, div_le_one hsum]
    exact Finset.single_le_sum (f := fun j => Real.exp (logits j))
      (fun j _ => (Real.exp_pos _).le) (Finset.mem_univ i)
  have hrun : runNli logits =
      (labelMapGet (argmax3 (softmax3 logits)).val "unknown",
        softmax3 logits (argmax3 (softmax3 logits))) := rfl
  rw [hrun]
  exact ⟨(labelMapGet_fin3 _).1, (labelMapGet_fin3 _).2, rfl, hpos _, hle _⟩

/-- Helper: each claim status is exactly one of the three literals, so the
three counters of `verify_document` partition the result list. -/
theorem countP_status_partition (l : List ClaimStatus) :
    l.countP isSupported + l.countP isContradicted + l.countP isUnverifiable
      = l.length := by
  induction l with
  | nil => rfl
  | cons a l ih =>
    cases a <;>
      simp [List.countP_cons, isSupported, isContradicted, isUnverifiable] <;>
      omega

/-- C8: `ClaimVerifier.verify_document` returns a trust score equal to
`max(0, min(1, supported/total - 0.5 * contradicted/total))` for a
non-empty claim list and 0.0 for an empty one; the supported, contradicted
and unverifiable counters sum to the total, and the trust score always
lies in [0, 1]. -/
theorem c8_trust_score_formula (l : List ClaimStatus) :
    (l ≠ [] →
      trustScore l =
        max 0 (min 1 ((l.countP isSupported : ℚ) / l.length -
          0.5 * ((l.countP isContradicted : ℚ) / l.length)))) ∧
    (l = [] → trustScore l = 0) ∧
    l.countP isSupported + l.countP isContradicted + l.countP isUnverifiable
      = l.length ∧
    0 ≤ trustScore l ∧ trustScore l ≤ 1 := by
  refine ⟨?_, ?_, countP_status_partition l, le_max_left _ _,
    max_le (by norm_num) (min_le_left _ _)⟩
  · intro h
    have hlen : 0 < l.length := List.length_pos.mpr h
    simp only [trustScore, if_pos hlen]
    ring_nf
  · intro h
    subst h
    norm_num [trustScore]

/-- Helper: invariant of the inner fold of `match_columns`: any match it
produces reaches the threshold, has its confidence derived from its own
overall score, and belongs to the source column being matched. -/
theorem considerTarget_fold_inv (sem syn : String → String → ℚ)
    (stn ttn : String) (th : ℚ) (src : ColumnInfo) :
    ∀ (cols : List ColumnInfo) (acc : ℚ × Option ColumnMatch),
      (∀ m, acc.2 = some m → th ≤ m.overall_score ∧
        m.confidence = determineConfidence m.overall_score ∧
        m.source_column = src.name) →
      ∀ m, (cols.foldl (considerTarget sem syn stn ttn th src) acc).2 = some m →
        th ≤ m.overall_score ∧
        m.confidence = determineConfidence m.overall_score ∧
        m.source_column = src.name := by
  intro cols
  induction cols with
  | nil => intro acc hacc m hm; exact hacc m hm
  | cons c cols ih =>
    intro acc hacc m hm
    refine ih _ ?_ m hm
    intro m1 hm1
    simp only [considerTarget] at hm1
    split_ifs at hm1 with hcond
    · cases hm1
      exact ⟨hcond.2, rfl, rfl⟩
    · exact hacc m1 hm1

/-- Helper: `bestMatchFor` only returns matches satisfying the threshold,
confidence and source-column properties. -/
theorem bestMatchFor_spec (sem syn : String → String → ℚ)
    (st tt : TableInfo) (th : ℚ) (src : ColumnInfo) (m : ColumnMatch)
    (h : bestMatchFor sem syn st tt th src = some m) :
    th ≤ m.overall_score ∧
    m.confidence = determineConfidence m.overall_score ∧
    m.source_column = src.name := by
  refine considerTarget_fold_inv sem syn st.name tt.name th src
    tt.columns (0, Option.none) ?_ m h
  intro m1 hm1
  simp at hm1

/-- Helper: counting survivors of a filterMap is bounded by counting the
originating elements. -/
theorem countP_filterMap_le (f : α → Option β) (p : β → Bool)
    (q : α → Bool) (h : ∀ a b, f a = some b → p b = true → q a = true) :
    ∀ l : List α, (l.filterMap f).countP p ≤ l.countP q := by
  intro l
  induction l with
  | nil => simp
  | cons a l ih =>
    cases hf : f a with
    | none =>
      rw [List.filterMap_cons_none hf, List.countP_cons]
      omega
    | some b =>
      rw [List.filterMap_cons_some hf, List.countP_cons, List.countP_cons]
      have hqb : (if p b = true then 1 else 0) ≤
          (if q a = true then 1 else 0) := by
        by_cases hp : p b = true
        · rw [if_pos hp, if_pos (h a b hf hp)]
        · rw [if_neg hp]
          exact Nat.zero_le _
      omega

/-- C9: `SemanticMatcher.match_columns` returns at most one match per
source column (counted per column name), every returned match has
`overall_score >= threshold` and a confidence level determined from its
overall score by the fixed cutoffs of `_determine_confidence`, and the
returned list is sorted in non-increasing order of overall score. -/
theorem c9_match_columns_invariants (sem syn : String → String → ℚ)
    (st tt : TableInfo) (th : ℚ) :
    (∀ m ∈ matchColumnsSM sem syn st tt th,
        th ≤ m.overall_score ∧
        m.confidence = determineConfidence m.overall_score) ∧
    (matchColumnsSM sem syn st tt th).Sorted scoreGE ∧
    (∀ cname : String,
      (matchColumnsSM sem syn st tt th).countP
          (fun m => m.source_column == cname) ≤
        st.columns.countP (fun c => c.name == cname)) := by
  have hmc : matchColumnsSM sem syn st tt th =
      (st.columns.filterMap
        (bestMatchFor sem syn st tt th)).insertionSort scoreGE := rfl
  have hperm :
      (matchColumnsSM sem syn st tt th).Perm
        (st.columns.filterMap (bestMatchFor sem syn st tt th)) := by
    rw [hmc]
    exact List.perm_insertionSort scoreGE _
  refine ⟨?_, by rw [hmc]; exact List.sorted_insertionSort scoreGE _, ?_⟩
  · intro m hm
    have hm2 : m ∈ st.columns.filterMap (bestMatchFor sem syn st tt th) :=
      hperm.mem_iff.mp hm
    obtain ⟨src, _, hsrc⟩ := List.mem_filterMap.mp hm2
    obtain ⟨h1, h2, _⟩ := bestMatchFor_spec sem syn st tt th src m hsrc
    exact ⟨h1, h2⟩
  · intro cname
    rw [hperm.countP_eq]
    refine countP_filterMap_le _ _ _ ?_ st.columns
    intro src m hf hp
    obtain ⟨_, _, h3⟩ := bestMatchFor_spec sem syn st tt th src m hf
    rw [← h3]
    exact hp

/-- Witness for C9: a one-column source table matched against a
one-column target table with constant oracle scores 0.9 and 0.8 produces
the single high-confidence match with overall score 0.89, which satisfies
the threshold 0.4 and the confidence rule. -/
theorem c9_match_columns_witness :
    (0.4 : ℚ) ≤ (0.89 : ℚ) ∧
    MatchConfidence.high = determineConfidence (0.89 : ℚ) := by
  have hres : matchColumnsSM (fun _ _ => 0.9) (fun _ _ => 0.8)
      ⟨"cust", [⟨"cust_id", "INTEGER"⟩]⟩
      ⟨"customers", [⟨"customer_id", "INTEGER"⟩]⟩ 0.4 =
      [{ source_column := "cust_id"
         source_table := "cust"
         target_column := "customer_id"
         target_table := "customers"
         overall_score := 0.89
         confidence := .high
         semantic_score := 0.9
         syntactic_score := 0.8
         type_score := 1 }] := by
    norm_num [matchColumnsSM, bestMatchFor, considerTarget, computeTypeScore,
      matcherWeights, determineConfidence, List.insertionSort,
      List.filterMap_cons, List.foldl_cons, List.foldl_nil]
  have h := (c9_match_columns_invariants (fun _ _ => 0.9) (fun _ _ => 0.8)
    ⟨"cust", [⟨"cust_id", "INTEGER"⟩]⟩
    ⟨"customers", [⟨"customer_id", "INTEGER"⟩]⟩ 0.4).1
    { source_column := "cust_id"
      source_table := "cust"
      target_column := "customer_id"
      target_table := "customers"
      overall_score := 0.89
      confidence := .high
      semantic_score := 0.9
      syntactic_score := 0.8
      type_score := 1 }
    (by rw [hres]; exact List.mem_singleton_self _)
  exact h

/-- Helper: for a positive batch size the successive LIMIT/OFFSET batches
partition the source rows. -/
theorem chunksOf_flatten (bs : Nat) (hbs : bs ≠ 0) :
    ∀ l : List α, (chunksOf bs l).flatten = l := by
  refine chunksOf.induct bs (fun l => (chunksOf bs l).flatten = l) ?_ ?_
  · intro l h
    rcases h with h | h
    · exact absurd h hbs
    · rw [chunksOf, dif_pos (Or.inr h)]
      simp only [List.flatten_nil]
      exact (List.isEmpty_iff.mp h).symm
  · intro l h ih
    rw [chunksOf, dif_neg h]
    simp only [List.flatten_cons, ih]
    exact List.take_append_drop bs l

/-- Helper: when no batch SELECT raises, the batch loop runs every batch
and folds the per-row step over all source rows in order. -/
theorem batchLoop_no_fetch_error (o : MigOracle) (stn ttn : String)
    (cols : List String) (hfetch : ∀ i, o.fetchError i = Option.none) :
    ∀ (chunks : List (List SourceRow)) (i : Nat) (st : MigState),
      batchLoop o stn ttn cols chunks i st =
        (chunks.foldl
          (fun s c => migrateBatch o.row stn ttn cols c s) st,
          Option.none) := by
  intro chunks
  induction chunks with
  | nil => intro i st; rfl
  | cons c rest ih =>
    intro i st
    simp only [batchLoop, hfetch i, List.foldl_cons]
    exact ih (i + 1) _

/-- Helper: accounting of the per-row fold of `_migrate_batch`: the two
counters absorb every row exactly once, the failed-record list receives
exactly the failing rows in order, and the pending inserts are exactly
the successful rows in order. -/
theorem processRow_foldl_spec (o : RowOracle) (stn ttn : String)
    (cols : List String) :
    ∀ (rows : List SourceRow) (st : MigState),
      (rows.foldl (processRow o stn ttn cols) st).migrated +
          (rows.foldl (processRow o stn ttn cols) st).failedCount =
        st.migrated + st.failedCount + rows.length ∧
      (rows.foldl (processRow o stn ttn cols) st).failedRecs =
        st.failedRecs ++
          (rows.filter (fun r => (o.rowError r).isSome)).map
            (mkFailedRecord o stn cols) ∧
      (rows.foldl (processRow o stn ttn cols) st).pending =
        st.pending ++
          (rows.filter (fun r => (o.rowError r).isNone)).map
            (fun r => (⟨ttn, o.transformedVals r⟩ : InsertedRow)) := by
  intro rows
  induction rows with
  | nil => intro st; simp
  | cons r rest ih =>
    intro st
    obtain ⟨ih1, ih2, ih3⟩ := ih (processRow o stn ttn cols st r)
    cases ho : o.rowError r with
    | none =>
      refine ⟨?_, ?_, ?_⟩
      · rw [List.foldl_cons, ih1]
        simp only [processRow, ho]
        simp only [List.length_cons]
        omega
      · rw [List.foldl_cons, ih2]
        simp [processRow, ho]
      · rw [List.foldl_cons, ih3]
        simp [processRow, ho]
    | some pair =>
      obtain ⟨msg, ty⟩ := pair
      refine ⟨?_, ?_, ?_⟩
      · rw [List.foldl_cons, ih1]
        simp only [processRow, ho]
        simp only [List.length_cons]
        omega
      · rw [List.foldl_cons, ih2]
        simp [processRow, ho, mkFailedRecord]
      · rw [List.foldl_cons, ih3]
        simp [processRow, ho]

/-- Helper: with no connect error, an existing source table, a positive
batch size and no fetch error, the non-dry-run `migrate_table` reaches
the commit with the state obtained by folding the per-row step over all
source rows. -/
theorem migrateTable_ok_run (o : MigOracle)
    (srcDb : List (String × List SourceRow)) (tgt : List InsertedRow)
    (stn ttn : String) (cols : List String) (bs : Nat)
    (rows : List SourceRow)
    (hconn : o.connectError = Option.none)
    (hlook : srcDb.lookup stn = some rows)
    (hbs : bs ≠ 0) (hfetch : ∀ i, o.fetchError i = Option.none) :
    migrateTable o srcDb tgt stn ttn cols bs false =
      (⟨stn, ttn,
        (if (rows.foldl (processRow o.row stn ttn cols)
            initMigState).failedCount = 0 then .completed
          else .partialSuccess),
        rows.length,
        (rows.foldl (processRow o.row stn ttn cols) initMigState).migrated,
        (rows.foldl (processRow o.row stn ttn cols)
          initMigState).failedCount,
        (rows.foldl (processRow o.row stn ttn cols)
          initMigState).failedRecs,
        Option.none⟩,
        tgt ++ (rows.foldl (processRow o.row stn ttn cols)
          initMigState).pending, 1) := by
  have hloop := batchLoop_no_fetch_error o stn ttn cols hfetch
    (chunksOf bs rows) 0 initMigState
  have hfold : (chunksOf bs rows).foldl
      (fun s c => migrateBatch o.row stn ttn cols c s) initMigState =
      rows.foldl (processRow o.row stn ttn cols) initMigState := by
    conv_rhs => rw [← chunksOf_flatten bs hbs rows]
    rw [List.foldl_flatten]
    rfl
  simp only [migrateTable, hconn, hlook, Bool.false_eq_true, if_false,
    hloop, hfold]

/-- C2: in a non-dry-run `migrate_table` call where no exception escapes
the batch loop, each fetched source row whose processing raises is
appended exactly once to the failed-record list, as a FailedRecord
carrying the row id, the source columns zipped with the raw row values,
the error message and the error type; processing continues with the rows
after it (the fold never revisits a row), and at the end
`records_migrated + records_failed` equals the number of rows fetched
from the source table. -/
theorem c2_migrate_table_per_row_failures (o : MigOracle)
    (srcDb : List (String × List SourceRow)) (tgt : List InsertedRow)
    (stn ttn : String) (cols : List String) (bs : Nat)
    (rows : List SourceRow)
    (hconn : o.connectError = Option.none)
    (hlook : srcDb.lookup stn = some rows)
    (hbs : bs ≠ 0) (hfetch : ∀ i, o.fetchError i = Option.none) :
    (migrateTable o srcDb tgt stn ttn cols bs false).1.failed_records =
      (rows.filter (fun r => (o.row.rowError r).isSome)).map
        (mkFailedRecord o.row stn cols) ∧
    (migrateTable o srcDb tgt stn ttn cols bs false).1.records_migrated +
      (migrateTable o srcDb tgt stn ttn cols bs false).1.records_failed =
      rows.length ∧
    (migrateTable o srcDb tgt stn ttn cols bs false).1.records_attempted =
      rows.length := by
  rw [migrateTable_ok_run o srcDb tgt stn ttn cols bs rows hconn hlook
    hbs hfetch]
  obtain ⟨h1, h2, _⟩ := processRow_foldl_spec o.row stn ttn cols rows
    initMigState
  refine ⟨?_, ?_, rfl⟩
  · simpa [initMigState] using h2
  · simpa [initMigState] using h1

/-- Witness for C2: a two-row source table where the INSERT of row 7
raises an IntegrityError and the other succeeds yields exactly one
FailedRecord, for row 7 with its column data, and the counters sum to the
two fetched rows. -/
theorem c2_migrate_table_witness :
    (migrateTable
      ⟨⟨fun r => if r.rowid = 7 then
          some ("UNIQUE constraint failed", "IntegrityError")
        else Option.none, fun r => r.vals⟩,
        Option.none, fun _ => Option.none⟩
      [("old_users", [⟨3, [30]⟩, ⟨7, [70]⟩])] [] "old_users" "new_users"
      ["age"] 1000 false).1.failed_records =
      [⟨"old_users", 7, [("age", 70)], "UNIQUE constraint failed",
        "IntegrityError"⟩] ∧
    (migrateTable
      ⟨⟨fun r => if r.rowid = 7 then
          some ("UNIQUE constraint failed", "IntegrityError")
        else Option.none, fun r => r.vals⟩,
        Option.none, fun _ => Option.none⟩
      [("old_users", [⟨3, [30]⟩, ⟨7, [70]⟩])] [] "old_users" "new_users"
      ["age"] 1000 false).1.records_migrated +
      (migrateTable
      ⟨⟨fun r => if r.rowid = 7 then
          some ("UNIQUE constraint failed", "IntegrityError")
        else Option.none, fun r => r.vals⟩,
        Option.none, fun _ => Option.none⟩
      [("old_users", [⟨3, [30]⟩, ⟨7, [70]⟩])] [] "old_users" "new_users"
      ["age"] 1000 false).1.records_failed = 2 := by
  have h := c2_migrate_table_per_row_failures
    ⟨⟨fun r => if r.rowid = 7 then
        some ("UNIQUE constraint failed", "IntegrityError")
      else Option.none, fun r => r.vals⟩,
      Option.none, fun _ => Option.none⟩
    [("old_users", [⟨3, [30]⟩, ⟨7, [70]⟩])] [] "old_users" "new_users"
    ["age"] 1000 [⟨3, [30]⟩, ⟨7, [70]⟩] rfl (by simp) (by simp)
    (fun _ => rfl)
  obtain ⟨h1, h2, _⟩ := h
  constructor
  · rw [h1]
    simp [mkFailedRecord]
  · rw [h2]
    rfl

/-- C3: a non-dry-run `migrate_table` call treats the table's batch as a
single commit-or-rollback unit: when the batch loop completes, the target
connection is committed exactly once and the status is COMPLETED exactly
when no record failed and PARTIAL otherwise; when an exception escapes
before the commit, the status is FAILED, the target connection is rolled
back without committing, and the committed target database is exactly
what it was before the call, so no row inserted during the call remains
in it. -/
theorem c3_commit_or_rollback (o : MigOracle)
    (srcDb : List (String × List SourceRow)) (tgt : List InsertedRow)
    (stn ttn : String) (cols : List String) (bs : Nat)
    (_hbs : bs ≠ 0) :
    ((migrateTable o srcDb tgt stn ttn cols bs false).1.status =
        MigStatus.failed →
      (migrateTable o srcDb tgt stn ttn cols bs false).2.1 = tgt ∧
      (migrateTable o srcDb tgt stn ttn cols bs false).2.2 = 0) ∧
    ((migrateTable o srcDb tgt stn ttn cols bs false).1.status ≠
        MigStatus.failed →
      (migrateTable o srcDb tgt stn ttn cols bs false).2.2 = 1 ∧
      ((migrateTable o srcDb tgt stn ttn cols bs false).1.status =
          MigStatus.completed ↔
        (migrateTable o srcDb tgt stn ttn cols bs false).1.records_failed
          = 0) ∧
      ((migrateTable o srcDb tgt stn ttn cols bs false).1.status =
          MigStatus.completed ∨
        (migrateTable o srcDb tgt stn ttn cols bs false).1.status =
          MigStatus.partialSuccess)) := by
  cases hc : o.connectError with
  | some e =>
    simp only [migrateTable, hc]
    exact ⟨fun _ => ⟨by trivial, by trivial⟩,
      fun hne => absurd (by trivial) hne⟩
  | none =>
    cases hl : srcDb.lookup stn with
    | none =>
      simp only [migrateTable, hc, hl]
      exact ⟨fun _ => ⟨by trivial, by trivial⟩,
        fun hne => absurd (by trivial) hne⟩
    | some rows =>
      simp only [migrateTable, hc, hl, Bool.false_eq_true, if_false]
      cases hb : batchLoop o stn ttn cols (chunksOf bs rows) 0
          initMigState with
      | mk st err =>
        cases err with
        | some e =>
          simp only
          exact ⟨fun _ => ⟨by trivial, by trivial⟩,
            fun hne => absurd (by trivial) hne⟩
        | none =>
          simp only
          by_cases hf : st.failedCount = 0
          · simp only [hf, if_pos rfl]
            refine ⟨fun hcon => absurd hcon (by simp),
              fun _ => ⟨by trivial, ?_, Or.inl (by trivial)⟩⟩
            simp [hf]
          · simp only [if_neg hf]
            refine ⟨fun hcon => absurd hcon (by simp),
              fun _ => ⟨by trivial, ?_, Or.inr (by trivial)⟩⟩
            simp [hf]

/-- Witness for C3: migrating a one-row table with a batch size of 1000
and nothing raising commits exactly once and reports COMPLETED with zero
failed records. -/
theorem c3_commit_or_rollback_witness :
    (migrateTable okMigOracle [("t", [⟨1, [5]⟩])] [] "t" "u" ["c"]
      1000 false).2.2 = 1 ∧
    ((migrateTable okMigOracle [("t", [⟨1, [5]⟩])] [] "t" "u" ["c"]
        1000 false).1.status = MigStatus.completed ↔
      (migrateTable okMigOracle [("t", [⟨1, [5]⟩])] [] "t" "u" ["c"]
        1000 false).1.records_failed = 0) ∧
    ((migrateTable okMigOracle [("t", [⟨1, [5]⟩])] [] "t" "u" ["c"]
        1000 false).1.status = MigStatus.completed ∨
      (migrateTable okMigOracle [("t", [⟨1, [5]⟩])] [] "t" "u" ["c"]
        1000 false).1.status = MigStatus.partialSuccess) := by
  have hrun := migrateTable_ok_run okMigOracle [("t", [⟨1, [5]⟩])] []
    "t" "u" ["c"] 1000 [⟨1, [5]⟩] rfl (by simp) (by simp) (fun _ => rfl)
  have hstat : (migrateTable okMigOracle [("t", [⟨1, [5]⟩])] [] "t" "u"
      ["c"] 1000 false).1.status = MigStatus.completed := by
    rw [hrun]
    simp [okMigOracle, okRowOracle, processRow, initMigState]
  exact (c3_commit_or_rollback okMigOracle [("t", [⟨1, [5]⟩])] [] "t" "u"
    ["c"] 1000 (by simp)).2 (by rw [hstat]; simp)

/-- C10: `migrate_table` with `dry_run=True` performs no INSERT on the
target database — the committed target content is identical before and
after the call and no commit is executed — while returning a COMPLETED
result whose records_attempted and records_migrated both equal the source
table's row count and whose records_failed is zero. -/
theorem c10_dry_run_frame (o : MigOracle)
    (srcDb : List (String × List SourceRow)) (tgt : List InsertedRow)
    (stn ttn : String) (cols : List String) (bs : Nat)
    (rows : List SourceRow)
    (hconn : o.connectError = Option.none)
    (hlook : srcDb.lookup stn = some rows) :
    migrateTable o srcDb tgt stn ttn cols bs true =
      (⟨stn, ttn, MigStatus.completed, rows.length, rows.length, 0, [],
        Option.none⟩, tgt, 0) := by
  simp [migrateTable, hconn, hlook]

/-- Witness for C10: a dry run over a two-row source table leaves the
non-empty target database untouched, commits nothing and reports
COMPLETED with 2 attempted, 2 migrated, 0 failed. -/
theorem c10_dry_run_witness :
    migrateTable okMigOracle [("t", [⟨1, [5]⟩, ⟨2, [6]⟩])] [⟨"u", [9]⟩]
      "t" "u" ["c"] 1000 true =
      (⟨"t", "u", MigStatus.completed, 2, 2, 0, [], Option.none⟩,
        [⟨"u", [9]⟩], 0) := by
  have h := c10_dry_run_frame okMigOracle [("t", [⟨1, [5]⟩, ⟨2, [6]⟩])]
    [⟨"u", [9]⟩] "t" "u" ["c"] 1000 [⟨1, [5]⟩, ⟨2, [6]⟩] rfl (by simp)
  rw [h]
  rfl

/-- Helper: a Python dict assignment makes the stored value the one
subsequent lookups of that key see. -/
theorem lookup_setKey {β : Type} (l : List (String × β)) (k : String)
    (v : β) : (setKey l k v).lookup k = some v := by
  induction l with
  | nil => simp [setKey, List.lookup]
  | cons p rest ih =>
    obtain ⟨k0, v0⟩ := p
    by_cases hk : k0 = k
    · simp [setKey, hk, List.lookup]
    · simp only [setKey, if_neg hk, List.lookup]
      have : (k == k0) = false := by
        simp [Ne.symm hk]
      rw [this]
      exact ih

/-- C4: in the PS1 API, an exception raised by any of the pipeline steps
of `/verify` is caught at the boundary: the stored job ends with status
"failed" and the error string recorded, and the handler raises an
HTTPException with status code 500; likewise `/upload-source` converts an
ingestion exception for a PDF upload into an HTTPException with status
code 500. -/
theorem c4_api_exceptions_become_500 (e job_id llm_text : String)
    (jobs : List (String × Job)) (filename ie : String)
    (hpdf : pyEndsWith filename ".pdf" = true) :
    (verifyText (.error e) job_id llm_text jobs).2 =
      .error ⟨500, "Verification failed: " ++ e⟩ ∧
    (verifyText (.error e) job_id llm_text jobs).1.lookup job_id =
      some ⟨"failed", some e, llm_text⟩ ∧
    uploadSourceDocument (.error ie) filename =
      .error ⟨500, "Failed to ingest document: " ++ ie⟩ := by
  refine ⟨rfl, ?_, ?_⟩
  · exact lookup_setKey _ job_id _
  · simp [uploadSourceDocument, hpdf]

/-- Witness for C4: a failing pipeline for job "j1" and a failing
ingestion of "doc.pdf" both surface as HTTP 500 and the job is marked
failed. -/
theorem c4_api_exceptions_witness :
    (verifyText (.error "model crashed") "j1" "some text" []).2 =
      .error ⟨500, "Verification failed: " ++ "model crashed"⟩ ∧
    (verifyText (.error "model crashed") "j1" "some text" []).1.lookup "j1"
      = some ⟨"failed", some "model crashed", "some text"⟩ ∧
    uploadSourceDocument (.error "bad pdf") "doc.pdf" =
      .error ⟨500, "Failed to ingest document: " ++ "bad pdf"⟩ :=
  c4_api_exceptions_become_500 "model crashed" "j1" "some text" []
    "doc.pdf" "bad pdf" (by decide)

/-- C5 counterexample: the claim that every MigrationExecutor operation
closes both connections via disconnect() in a finally block on success
and on error alike fails for `detect_split_candidates`: its `connect()`
call sits before the try block, so when opening the target connection
raises after the source connection opened, the operation propagates the
exception with the source connection still open. -/
theorem c5_counterexample_detect_split_leaks :
    ((detectSplitConns
      ⟨Option.none, some "unable to open database file", Option.none⟩
      ⟨false, false⟩).1).srcOpen = true := rfl

/-- C5 (amended): `migrate_table` and `rollback_migration` wrap
`connect()` and the body in try/except/finally with `disconnect()` in the
finally, so they always return with both connections closed;
`detect_split_candidates` also always runs its finally-disconnect
provided `connect()` itself does not raise, but its `connect()` call lies
outside the try, so a connect failure can leak the source connection. -/
theorem c5_connections_closed (o : ConnOracle) (st : ConnState) :
    (migrateTableConns o st).1 = ⟨false, false⟩ ∧
    (rollbackMigrationConns o st).1 = ⟨false, false⟩ ∧
    (o.srcConnectError = Option.none → o.tgtConnectError = Option.none →
      (detectSplitConns o st).1 = ⟨false, false⟩) := by
  refine ⟨?_, ?_, ?_⟩
  · simp only [migrateTableConns]
    cases (connectSteps o st).2 <;> rfl
  · simp only [rollbackMigrationConns]
    cases (connectSteps o st).2 <;> rfl
  · intro h1 h2
    simp [detectSplitConns, connectSteps, h1, h2, disconnectStep]

/-- Witness for C5 (amended): with both connects succeeding and the body
raising, `detect_split_candidates` still returns with both connections
closed (and the other two operations always do). -/
theorem c5_connections_closed_witness :
    (detectSplitConns ⟨Option.none, Option.none, some "no such column"⟩
      ⟨false, false⟩).1 = ⟨false, false⟩ :=
  (c5_connections_closed
    ⟨Option.none, Option.none, some "no such column"⟩ ⟨false, false⟩).2.2
    rfl rfl

/-- C6: each of the six PS2 session endpoints answers a session id that
is not in the in-memory sessions dictionary with an HTTPException of
status code 404 and detail "Session not found", and leaves the sessions
dictionary unchanged. -/
theorem c6_unknown_session_is_404 (run1 run2 : SessionData → SessionData × String)
    (rep1 rep2 rep3 rep4 : SessionData → String) (session_id : String)
    (sessions : List (String × SessionData))
    (h : sessions.lookup session_id = Option.none) :
    analyzeSchemas run1 session_id sessions =
      (sessions, .error ⟨404, "Session not found"⟩) ∧
    getMappingReport rep1 session_id sessions =
      (sessions, .error ⟨404, "Session not found"⟩) ∧
    executeMigration run2 session_id sessions =
      (sessions, .error ⟨404, "Session not found"⟩) ∧
    getValidationReport rep2 session_id sessions =
      (sessions, .error ⟨404, "Session not found"⟩) ∧
    getVisualizationData rep3 session_id sessions =
      (sessions, .error ⟨404, "Session not found"⟩) ∧
    getExplainReport rep4 session_id sessions =
      (sessions, .error ⟨404, "Session not found"⟩) := by
  simp [analyzeSchemas, getMappingReport, executeMigration,
    getValidationReport, getVisualizationData, getExplainReport, h]

/-- Witness for C6: the unknown session id "missing" against a one-entry
sessions dictionary gets 404 "Session not found" from all six endpoints
and the dictionary is unchanged. -/
theorem c6_unknown_session_witness :
    analyzeSchemas (fun s => (s, "ok")) "missing"
      [("20240101_000000", ⟨"s.db", "t.db", false, false⟩)] =
      ([("20240101_000000", ⟨"s.db", "t.db", false, false⟩)],
        .error ⟨404, "Session not found"⟩) ∧
    getMappingReport (fun _ => "report") "missing"
      [("20240101_000000", ⟨"s.db", "t.db", false, false⟩)] =
      ([("20240101_000000", ⟨"s.db", "t.db", false, false⟩)],
        .error ⟨404, "Session not found"⟩) ∧
    executeMigration (fun s => (s, "ok")) "missing"
      [("20240101_000000", ⟨"s.db", "t.db", false, false⟩)] =
      ([("20240101_000000", ⟨"s.db", "t.db", false, false⟩)],
        .error ⟨404, "Session not found"⟩) ∧
    getValidationReport (fun _ => "report") "missing"
      [("20240101_000000", ⟨"s.db", "t.db", false, false⟩)] =
      ([("20240101_000000", ⟨"s.db", "t.db", false, false⟩)],
        .error ⟨404, "Session not found"⟩) ∧
    getVisualizationData (fun _ => "report") "missing"
      [("20240101_000000", ⟨"s.db", "t.db", false, false⟩)] =
      ([("20240101_000000", ⟨"s.db", "t.db", false, false⟩)],
        .error ⟨404, "Session not found"⟩) ∧
    getExplainReport (fun _ => "report") "missing"
      [("20240101_000000", ⟨"s.db", "t.db", false, false⟩)] =
      ([("20240101_000000", ⟨"s.db", "t.db", false, false⟩)],
        .error ⟨404, "Session not found"⟩) :=
  c6_unknown_session_is_404 (fun s => (s, "ok")) (fun s => (s, "ok"))
    (fun _ => "report") (fun _ => "report") (fun _ => "report")
    (fun _ => "report") "missing"
    [("20240101_000000", ⟨"s.db", "t.db", false, false⟩)] (by decide)

/-- Witness for C8 at the concrete status list
[supported, contradicted, unverifiable]: one third supported minus half of
one third contradicted gives trust score 1/6. -/
theorem c8_trust_score_witness :
    trustScore [ClaimStatus.supported, ClaimStatus.contradicted,
      ClaimStatus.unverifiable] = 1 / 6 := by
  have h := (c8_trust_score_formula [ClaimStatus.supported,
    ClaimStatus.contradicted, ClaimStatus.unverifiable]).1 (by decide)
  rw [h]
  norm_num [List.countP_cons, isSupported, isContradicted]

end Spec2Proof
